import Mathlib

/-!
Verification of the NMF factorization engine (`methods/factorization/nmf.py`)
against its natural-language specification.

The Python class `Nmf` is shallowly embedded here: matrices are dense
`Matrix (Fin a) (Fin b) ℚ` values, the linear-algebra backend's operations
(`dot`, `multiply`, `elop`, `repmat`, `argmax`, `sop`, `max`-with-scalar,
axis sums) become the explicit Lean functions below, instance attributes
mutated across calls (`self.cons`, `self.consold`, `self.tracker`,
`self.W`, `self.H`) become explicitly threaded state, and a Python
attribute access that can fail (reading an attribute that was never
assigned, or calling a method on `None`) returns `Except Err`.
The unbounded `while` loop is embedded with an explicit fuel argument;
exhausting fuel is reported as the distinguished error `Err.fuelOut`.
-/

namespace NmfEngine

open Matrix

/-- Failure modes of the embedded engine.  `attributeError` stands for a
Python `AttributeError` (reading a never-assigned attribute, calling a
method of `None`, or a failed `getattr` during strategy resolution);
`nameError` stands for reading a local variable that was never bound
(`iter` / `cobj` after a zero-iteration `for` loop); `fuelOut` marks
exhaustion of the explicit fuel bounding the embedded `while` loop. -/
inductive Err where
  | attributeError
  | nameError
  | fuelOut
  deriving DecidableEq

/-- Dense rational matrix, the embedding of the backend's dense matrices. -/
abbrev Mat (a b : ℕ) : Type := Matrix (Fin a) (Fin b) ℚ

/-- Elementwise product: backend `multiply(A, B)`. -/
def emul {a b : ℕ} (A B : Mat a b) : Mat a b :=
  Matrix.of fun i j => A i j * B i j

/-- Elementwise quotient: backend `elop(A, B, div)`. -/
def ediv {a b : ℕ} (A B : Mat a b) : Mat a b :=
  Matrix.of fun i j => A i j / B i j

/-- Column sums: backend `W.sum(0)`, a vector of per-column sums. -/
def colsum {a b : ℕ} (W : Mat a b) (k : Fin b) : ℚ :=
  ∑ i, W i k

/-- Row sums: backend `H.sum(1)`, a vector of per-row sums. -/
def rowsum {a b : ℕ} (H : Mat a b) (k : Fin a) : ℚ :=
  ∑ j, H k j

/-- Backend `argmax` along one axis: index of the first maximal entry of a
vector (`numpy` keeps the earliest index on ties), `none` on an empty axis. -/
def argmaxIdx {a : ℕ} (v : Fin a → ℚ) : Option (Fin a) :=
  (List.finRange a).foldl
    (fun acc i =>
      match acc with
      | none => some i
      | some b => if v b < v i then some i else some b)
    none

/-- `euclidean_update` (nmf.py lines 115-118): Euclidean multiplicative
update.  `self.H` is assigned first from the old `W`; `self.W` is then
assigned from the already-updated `H`.  The source groups the triple
products as `dot(W.T, dot(W, H))` and `dot(W, dot(H, H.T))`. -/
def euclidean_update {m r n : ℕ} (V : Mat m n) (W : Mat m r) (H : Mat r n) :
    Mat m r × Mat r n :=
  let Hn := emul H (ediv (Wᵀ * V) (Wᵀ * (W * H)))
  let Wn := emul W (ediv (V * Hnᵀ) (W * (Hn * Hnᵀ)))
  (Wn, Hn)

/-- `divergence_update` (nmf.py lines 120-125): divergence multiplicative
update.  `H1 = repmat(W.sum(0).T, 1, n)` broadcasts the column sums of the
old `W`; `self.H` is then assigned; `W1 = repmat(H.sum(1).T, m, 1)`
broadcasts the row sums of the NEW `H`; `self.W` is assigned last, with the
quotient `V / (W·H)` recomputed from the new `H`. -/
def divergence_update {m r n : ℕ} (V : Mat m n) (W : Mat m r) (H : Mat r n) :
    Mat m r × Mat r n :=
  let H1 : Mat r n := Matrix.of fun i _ => colsum W i
  let Hn := emul H (ediv (Wᵀ * ediv V (W * H)) H1)
  let W1 : Mat m r := Matrix.of fun _ j => rowsum Hn j
  let Wn := emul W (ediv (ediv V (W * Hn) * Hnᵀ) W1)
  (Wn, Hn)

/-- `fro_objective` (nmf.py lines 127-129): squared Frobenius norm of the
residual, `(sop(V - dot(W, H), 2, pow)).sum()`. -/
def fro_objective {m r n : ℕ} (V : Mat m n) (W : Mat m r) (H : Mat r n) : ℚ :=
  ∑ i, ∑ j, (V i j - (W * H) i j) ^ 2

/-- `div_objective` (nmf.py lines 131-134): generalized KL divergence.  The
backend's elementwise `log` is a parameter of the model (the linear-algebra
backend is an external collaborator, spec section 6). -/
def div_objective {m r n : ℕ} (logFn : ℚ → ℚ) (V : Mat m n) (W : Mat m r)
    (H : Mat r n) : ℚ :=
  ∑ i, ∑ j, (V i j * logFn (V i j / (W * H) i j) - V i j + (W * H) i j)

/-- The connectivity-objective state attached to the engine instance:
`self.cons` and `self.consold`, each `none` while the attribute was never
assigned (`hasattr` is false). -/
structure ConnState (n : ℕ) where
  cons : Option (Matrix (Fin n) (Fin n) Bool)
  consold : Option (Matrix (Fin n) (Fin n) Bool)

/-- The connectivity matrix built by `conn_objective` (nmf.py lines
141-144): `idx = argmax(H, axis=0)`, `mat1 = repmat(idx, n, 1)`,
`mat2 = repmat(idx.T, 1, n)`, `cons = elop(mat1, mat2, eq)`, so entry
`(i, j)` holds `idx j == idx i`. -/
def conn_cons {r n : ℕ} (H : Mat r n) : Matrix (Fin n) (Fin n) Bool :=
  Matrix.of fun i j =>
    decide (argmaxIdx (fun k => H k j) = argmaxIdx (fun k => H k i))

/-- Count of differing entries: `elop(A, B, ne).sum()`. -/
def countNe {n : ℕ} (A B : Matrix (Fin n) (Fin n) Bool) : ℕ :=
  ∑ i, ∑ j, if A i j ≠ B i j then 1 else 0

/-- `conn_objective` (nmf.py lines 136-151).  On `not hasattr(self,
'consold')` the source evaluates `np.ones_like(self.cons) - cons`; reading
`self.cons` when that attribute was never assigned raises
`AttributeError`, embedded as `Err.attributeError`.  When `self.cons` is
present, `ones_like(self.cons) - cons` is the elementwise complement of
`cons`.  On the `else` path the source shifts `self.consold = self.cons;
self.cons = cons` and returns `elop(self.cons, self.consold, ne).sum()`. -/
def conn_objective {r n : ℕ} (H : Mat r n) (st : ConnState n) :
    Except Err (ℚ × ConnState n) :=
  let cons := conn_cons H
  match st.consold with
  | none =>
    match st.cons with
    | none => .error .attributeError
    | some _ =>
      let consold : Matrix (Fin n) (Fin n) Bool := Matrix.of fun i j => !cons i j
      .ok ((countNe cons consold : ℚ), ⟨some cons, some consold⟩)
  | some _ =>
    match st.cons with
    | none => .error .attributeError
    | some consPrev =>
      .ok ((countNe cons consPrev : ℚ), ⟨some cons, some consPrev⟩)

/-- `_adjustment` (nmf.py lines 102-105): floor `H` then `W` elementwise at
the machine epsilon of each matrix's own dtype (the two epsilons are kept
as separate parameters, `np.finfo(self.H.dtype).eps` and
`np.finfo(self.W.dtype).eps`). -/
def _adjustment {m r n : ℕ} (epsW epsH : ℚ) (WH : Mat m r × Mat r n) :
    Mat m r × Mat r n :=
  (Matrix.of fun i j => max (WH.1 i j) epsW,
   Matrix.of fun i j => max (WH.2 i j) epsH)

/-- The run configuration read by `factorize` / `_is_satisfied` /
`_set_params`.  Numeric options model Python truthiness: `0` is the unset
("falsy") value of `max_iter`, `min_residuals` and `test_conv`. -/
structure Config where
  update : String
  objective : String
  max_iter : ℕ
  min_residuals : ℚ
  test_conv : ℕ
  n_run : ℕ
  track_factor : Bool
  track_error : Bool

/-- `_is_satisfied` (nmf.py lines 81-100), literally: four guards tried in
source order, `True` (continue) if none fires. -/
def _is_satisfied (cfg : Config) (p_obj c_obj : ℚ) (iter : ℕ) : Bool :=
  if cfg.test_conv ≠ 0 ∧ iter % cfg.test_conv ≠ 0 then true
  else if cfg.max_iter ≠ 0 ∧ cfg.max_iter ≤ iter then false
  else if cfg.min_residuals ≠ 0 ∧ 0 < iter ∧ c_obj - p_obj ≤ cfg.min_residuals then false
  else if 0 < iter ∧ p_obj < c_obj then false
  else true

/-- Outcome of one consultation of the Stopping Evaluator. -/
inductive Decision where
  | stop
  | continueRun
  deriving DecidableEq

/-- The Stopping Evaluator exactly as the specification words it (spec
section 4.4, claim C2): five rules in a fixed order, first match wins:
(1) periodic-test interval configured and the iteration not a multiple of
it: continue; (2) maximum-iteration limit configured and at most the
iteration: stop; (3) minimum-residual threshold configured, iteration
positive, and current minus previous at most the threshold: stop;
(4) iteration positive and objective increased: stop; (5) continue. -/
def spec_decision (cfg : Config) (p_obj c_obj : ℚ) (iter : ℕ) : Decision :=
  if cfg.test_conv ≠ 0 ∧ ¬ cfg.test_conv ∣ iter then .continueRun
  else if cfg.max_iter ≠ 0 ∧ cfg.max_iter ≤ iter then .stop
  else if cfg.min_residuals ≠ 0 ∧ 0 < iter ∧ c_obj - p_obj ≤ cfg.min_residuals then .stop
  else if 0 < iter ∧ p_obj < c_obj then .stop
  else .continueRun

/-- The inner `while` loop of `factorize` (nmf.py lines 59-66) with the
objective abstracted to the sequence of values it yields: `obj k` is the
value `self.objective()` computes after `k` update steps (`obj 0` is the
initial value of line 59).  Each loop body performs exactly one update, so
the iteration counter equals the number of updates performed.  Mirrors the
source: guard `_is_satisfied(pobj, cobj, iter)`; body `pobj = cobj`,
update, adjust, `cobj = objective() if not test_conv or iter % test_conv
== 0 else cobj`, `iter += 1`.  Returns `some iter` when the guard stops
the loop, `none` when fuel runs out first. -/
def stopLoop (cfg : Config) (obj : ℕ → ℚ) :
    ℕ → ℚ → ℚ → ℕ → Option ℕ
  | 0, _, _, _ => none
  | fuel + 1, pobj, cobj, iter =>
    if _is_satisfied cfg pobj cobj iter then
      stopLoop cfg obj fuel cobj
        (if cfg.test_conv = 0 ∨ iter % cfg.test_conv = 0 then obj (iter + 1) else cobj)
        (iter + 1)
    else some iter

/-- One run of the inner loop started as in nmf.py line 59:
`pobj = cobj = self.objective()`, `iter = 0`. -/
def runLoop (cfg : Config) (obj : ℕ → ℚ) (fuel : ℕ) : Option ℕ :=
  stopLoop cfg obj fuel (obj 0) (obj 0) 0

/-- The `mf_track.Mf_track` collaborator: owns recorded history, the
engine never reads it back (spec section 6).  `factors` records the
`(W, H)` copies passed to `_track_factor`; `errs` counts the calls to
`_track_error` (the recorded residual values come from `residuals()` in
the base class, outside `src/`, and are not needed by any claim). -/
structure Tracker (m r n : ℕ) where
  factors : List (Mat m r × Mat r n)
  errs : ℕ

/-- `self.tracker` as assigned by `_set_params` (nmf.py line 113):
`mf_track.Mf_track() if self.track_factor and self.n_run > 1 or
self.track_error else None`. -/
def mkTracker (m r n : ℕ) (cfg : Config) : Option (Tracker m r n) :=
  if (cfg.track_factor && decide (1 < cfg.n_run)) || cfg.track_error then
    some ⟨[], 0⟩
  else none

/-- An update strategy closed over `V`, acting on the `(W, H)` pair. -/
abbrev UpdFn (m r n : ℕ) : Type := Mat m r × Mat r n → Mat m r × Mat r n

/-- An objective strategy: reads `W`, `H` and the connectivity state,
returns the objective value and the new connectivity state (only the
`conn` objective touches or can fail on that state). -/
abbrev ObjFn (m r n : ℕ) : Type :=
  Mat m r → Mat r n → ConnState n → Except Err (ℚ × ConnState n)

/-- `self.update = getattr(self, update_name + '_update')` (nmf.py line
109).  The `Nmf` class defines exactly `euclidean_update` and
`divergence_update` (the recognized names per spec section 4.1); any other
name makes `getattr` raise `AttributeError`. -/
def resolve_update {m r n : ℕ} (V : Mat m n) (s : String) :
    Except Err (UpdFn m r n) :=
  if s = "euclidean" then Except.ok (fun WH => euclidean_update V WH.1 WH.2)
  else if s = "divergence" then Except.ok (fun WH => divergence_update V WH.1 WH.2)
  else Except.error Err.attributeError

/-- `self.objective = getattr(self, objective_name + '_objective')`
(nmf.py line 110), recognizing exactly `fro`, `div` and `conn`. -/
def resolve_objective {m r n : ℕ} (logFn : ℚ → ℚ) (V : Mat m n) (s : String) :
    Except Err (ObjFn m r n) :=
  if s = "fro" then Except.ok (fun W H cs => Except.ok (fro_objective V W H, cs))
  else if s = "div" then Except.ok (fun W H cs => Except.ok (div_objective logFn V W H, cs))
  else if s = "conn" then Except.ok (fun _ H cs => conn_objective H cs)
  else Except.error Err.attributeError

/-- The inner `while` loop of `factorize` (nmf.py lines 61-68) over the
real matrix state: guard, `pobj = cobj`, `self.update()`,
`self._adjustment()`, conditional objective recomputation (threading the
connectivity state), `iter += 1`, and the error-tracking branch
`if self.track_error: self.tracker._track_error(self.residuals())`
(calling `_track_error` on a `None` tracker would raise, embedded as
`Err.attributeError`; `mkTracker` in fact always supplies a tracker when
`track_error` is set).  Fuel bounds the unbounded source loop. -/
def innerLoop {m r n : ℕ} (cfg : Config) (upd adj : UpdFn m r n)
    (obj : ObjFn m r n) :
    ℕ → Mat m r × Mat r n → ConnState n → Option (Tracker m r n) → ℚ → ℚ → ℕ →
    Except Err ((Mat m r × Mat r n) × ConnState n × Option (Tracker m r n) × ℚ × ℕ)
  | 0, _, _, _, _, _, _ => .error .fuelOut
  | fuel + 1, WH, cs, tr, pobj, cobj, iter =>
    if _is_satisfied cfg pobj cobj iter then
      let WH1 := adj (upd WH)
      match (if cfg.test_conv = 0 ∨ iter % cfg.test_conv = 0 then
               obj WH1.1 WH1.2 cs
             else .ok (cobj, cs)) with
      | .error e => .error e
      | .ok (c1, cs1) =>
        match ((if cfg.track_error then
                 match tr with
                 | none => .error .attributeError
                 | some t => .ok (some ⟨t.factors, t.errs + 1⟩)
               else .ok tr) : Except Err (Option (Tracker m r n))) with
        | .error e => .error e
        | .ok tr1 => innerLoop cfg upd adj obj fuel WH1 cs1 tr1 cobj c1 (iter + 1)
    else .ok (WH, cs, tr, cobj, iter)

/-- The `for _ in xrange(self.n_run)` loop of `factorize` (nmf.py lines
57-74) plus the epilogue (lines 76-79).  Each run seeds `(W, H)`, computes
the initial objective (`pobj = cobj = self.objective()`), runs the inner
loop, then — the completion callback being an external no-op collaborator
— executes `if self.track_factor: self.tracker._track_factor(...)`,
where calling `_track_factor` on a `None` tracker raises, embedded as
`Err.attributeError`.  The connectivity state, the tracker and the last
run's `(W, H)`, `cobj` and `iter` are instance/local state threaded from
run to run; nothing resets the connectivity state at a run's start.  The
epilogue reads the loop-local `iter` and `cobj`: after zero runs these
local names were never bound and line 76 raises, embedded as
`Err.nameError`. -/
def runsLoop {m r n : ℕ} (cfg : Config) (upd adj : UpdFn m r n)
    (obj : ObjFn m r n) (seed : ℕ → Mat m r × Mat r n) (fuel : ℕ) :
    ℕ → ℕ → ConnState n → Option (Tracker m r n) →
    Option ((Mat m r × Mat r n) × ℚ × ℕ) →
    Except Err ((Mat m r × Mat r n) × ℚ × ℕ × Option (Tracker m r n))
  | 0, _, _, tr, last =>
    match last with
    | none => .error .nameError
    | some (WH, cobj, iter) => .ok (WH, cobj, iter, tr)
  | rem + 1, ridx, cs, tr, _ =>
    let WH0 := seed ridx
    match obj WH0.1 WH0.2 cs with
    | .error e => .error e
    | .ok (c0, cs0) =>
      match innerLoop cfg upd adj obj fuel WH0 cs0 tr c0 c0 0 with
      | .error e => .error e
      | .ok (WH1, cs1, tr1, cobj, iter) =>
        match ((if cfg.track_factor then
                 match tr1 with
                 | none => .error .attributeError
                 | some t => .ok (some ⟨WH1 :: t.factors, t.errs⟩)
               else .ok tr1) : Except Err (Option (Tracker m r n))) with
        | .error e => .error e
        | .ok tr2 =>
          runsLoop cfg upd adj obj seed fuel rem (ridx + 1) cs1 tr2
            (some (WH1, cobj, iter))

/-- `factorize` (nmf.py lines 49-79): `_set_params` resolves the update
and objective strategies by name and builds the tracker, then the run loop
executes.  A failed strategy resolution surfaces before any run starts.
The seeding strategy is the external collaborator of spec section 4.6,
modelled as a run-indexed source of `(W, H)` pairs; `logFn` is the
backend's elementwise logarithm; `epsW`/`epsH` are the machine epsilons of
the two factor matrices' dtypes.  A fresh engine instance has no
connectivity state, so the run loop starts from `⟨none, none⟩`. -/
def factorize {m r n : ℕ} (cfg : Config) (V : Mat m n) (logFn : ℚ → ℚ)
    (epsW epsH : ℚ) (seed : ℕ → Mat m r × Mat r n) (fuel : ℕ) :
    Except Err ((Mat m r × Mat r n) × ℚ × ℕ × Option (Tracker m r n)) :=
  match resolve_update V cfg.update with
  | .error e => .error e
  | .ok upd =>
    match resolve_objective logFn V cfg.objective with
    | .error e => .error e
    | .ok obj =>
      runsLoop cfg upd (_adjustment epsW epsH) obj seed fuel cfg.n_run 0
        ⟨none, none⟩ (mkTracker m r n cfg) none

/-! ## Concrete instances used by the claims -/

/-- A 2×3 mixture matrix whose per-column argmax indices are `[0, 0, 1]`
(the concrete scenario of claim C1). -/
def H1c : Mat 2 3 := !![5, 4, 0; 1, 2, 7]

/-- Configuration of claim C3: `min_residuals = 0.01`, `test_conv = 0`. -/
def cfg3 : Config := ⟨"euclidean", "fro", 0, 1 / 100, 0, 1, false, false⟩

/-- Objective-value sequence of claim C3: strictly decreasing by `0.5` per
iteration up to iteration 6, then decreasing by only `0.001` at
iteration 7 (value `6.999` from then on). -/
def obj3 (k : ℕ) : ℚ :=
  if k ≤ 6 then 10 - k / 2 else 6999 / 1000

/-- Configuration of claim C7: `max_iter = 5`, everything else unset. -/
def cfg7 : Config := ⟨"euclidean", "fro", 5, 0, 0, 1, false, false⟩

/-- Concrete target matrix for end-to-end runs. -/
def V0 : Mat 2 3 := !![1, 0, 2; 0, 1, 1]

/-- Concrete seeded basis matrix. -/
def W0 : Mat 2 2 := !![1, 0; 0, 1]

/-- Concrete seeded mixture matrix. -/
def H0 : Mat 2 3 := !![1, 2, 0; 0, 1, 3]

/-- A seeding collaborator returning `(W0, H0)` for every run. -/
def seed0 : ℕ → Mat 2 2 × Mat 2 3 := fun _ => (W0, H0)

/-- Configuration of claim C8: objective `conn`, two runs. -/
def cfg8 : Config := ⟨"euclidean", "conn", 1, 0, 0, 2, false, false⟩

/-- Configuration of claim C9's witness: unrecognized update name. -/
def cfg9 : Config := ⟨"gradient", "fro", 1, 0, 0, 1, false, false⟩

/-- Configuration of claim C10's witness: `track_factor` set, one run, no
error tracking. -/
def cfg10 : Config := ⟨"euclidean", "fro", 1, 0, 0, 1, true, false⟩

/-! ## Helper lemmas -/

/-- One unfolding step of `stopLoop` at positive fuel. -/
theorem stopLoop_succ (cfg : Config) (obj : ℕ → ℚ) (fuel : ℕ) (p c : ℚ)
    (iter : ℕ) :
    stopLoop cfg obj (fuel + 1) p c iter =
      if _is_satisfied cfg p c iter then
        stopLoop cfg obj fuel c
          (if cfg.test_conv = 0 ∨ iter % cfg.test_conv = 0 then obj (iter + 1) else c)
          (iter + 1)
      else some iter := rfl

/-! ## Claims -/

/-- C1: the specification says the first `conn_objective` call (no prior
connectivity state) builds `cons` from the per-column argmax indices,
stores `consold` as its elementwise complement and returns `n² = 9` for a
3-column `H` with argmax indices `[0, 0, 1]`.  The code instead evaluates
`np.ones_like(self.cons)` before `self.cons` was ever assigned, raising
`AttributeError` on that very first call: the connectivity matrix is
computed as specified (first conjunct), but the call errors instead of
returning 9 (second conjunct). -/
theorem conn_objective_first_call_raises :
    conn_cons H1c = !![true, true, false; true, true, false; false, false, true] ∧
    conn_objective H1c ⟨none, none⟩ = .error .attributeError :=
  ⟨by decide, rfl⟩

/-- C2: `_is_satisfied` continues exactly when the specification's
five-rule, first-match-wins Stopping Evaluator (`spec_decision`, worded
from the spec) continues: (1) periodic-test interval set and iteration not
a multiple of it → continue; (2) max-iteration limit set and ≤ iteration →
stop; (3) min-residual threshold set, iteration > 0 and `c - p ≤`
threshold → stop; (4) iteration > 0 and objective increased → stop;
(5) otherwise continue. -/
theorem is_satisfied_matches_spec_order (cfg : Config) (p c : ℚ) (iter : ℕ) :
    (_is_satisfied cfg p c iter = true) ↔
      spec_decision cfg p c iter = Decision.continueRun := by
  have hmod : (cfg.test_conv ≠ 0 ∧ ¬ cfg.test_conv ∣ iter) ↔
      (cfg.test_conv ≠ 0 ∧ iter % cfg.test_conv ≠ 0) := by
    constructor
    · rintro ⟨a, b⟩
      exact ⟨a, fun hm => b (Nat.dvd_of_mod_eq_zero hm)⟩
    · rintro ⟨a, b⟩
      exact ⟨a, fun hd => b (Nat.mod_eq_zero_of_dvd hd)⟩
  unfold _is_satisfied spec_decision
  simp only [hmod]
  split_ifs <;> simp

/-- C4: the Euclidean update exactly as the specification displays it
(spec section 4.2): `H ← H ⊙ (Wᵗ·V) ⊘ (Wᵗ·W·H)` first, then
`W ← W ⊙ (V·Hᵗ) ⊘ (W·H·Hᵗ)` computed with the already-updated `H`;
matrix products associated as written (left to right). -/
def euclidean_spec_step {m r n : ℕ} (V : Mat m n) (W : Mat m r) (H : Mat r n) :
    Mat m r × Mat r n :=
  let Hn := emul H (ediv (Wᵀ * V) (Wᵀ * W * H))
  let Wn := emul W (ediv (V * Hnᵀ) (W * Hn * Hnᵀ))
  (Wn, Hn)

/-- C4: one `euclidean_update` step is exactly the specification's pair of
assignments: the new `H` uses the old `W`, the new `W` uses the new `H`
(the source's product grouping `Wᵗ·(W·H)` and `W·(H·Hᵗ)` agrees with the
spec's by associativity of matrix multiplication). -/
theorem euclidean_update_matches_spec {m r n : ℕ} (V : Mat m n) (W : Mat m r)
    (H : Mat r n) :
    euclidean_update V W H = euclidean_spec_step V W H := by
  simp only [euclidean_update, euclidean_spec_step, Matrix.mul_assoc]

/-- C5: the Divergence update exactly as the specification displays it
(spec section 4.2): `H ← H ⊙ [Wᵗ·(V ⊘ (W·H))] ⊘ broadcast(colsum(W), n)`
with the old `W`, then `W ← W ⊙ [(V ⊘ (W·H))·Hᵗ] ⊘ broadcast(rowsum(H), m)`
with the new `H`, the quotient `V ⊘ (W·H)` recomputed from current state. -/
def divergence_spec_step {m r n : ℕ} (V : Mat m n) (W : Mat m r) (H : Mat r n) :
    Mat m r × Mat r n :=
  let Hn := emul H (ediv (Wᵀ * ediv V (W * H)) (Matrix.of fun i _ => colsum W i))
  let Wn := emul W (ediv (ediv V (W * Hn) * Hnᵀ) (Matrix.of fun _ j => rowsum Hn j))
  (Wn, Hn)

/-- C5: one `divergence_update` step is exactly the specification's pair
of assignments: `H` updated with the old `W` and the broadcast column sums
of the old `W`; `W` updated with the new `H`, the broadcast row sums of
the new `H`, and the quotient `V ⊘ (W·H)` recomputed with the new `H`
rather than reused. -/
theorem divergence_update_matches_spec {m r n : ℕ} (V : Mat m n) (W : Mat m r)
    (H : Mat r n) :
    divergence_update V W H = divergence_spec_step V W H := rfl

/-- C6: the Stabilizer `_adjustment` is a pure elementwise max with the
machine-epsilon scalar of each matrix's dtype, applied to `W` and `H`
independently, and after it every entry of the adjusted `W` and `H` is at
least the corresponding epsilon. -/
theorem adjustment_floors_at_machine_eps {m r n : ℕ} (epsW epsH : ℚ)
    (WH : Mat m r × Mat r n) (i : Fin m) (j : Fin r) (k : Fin r) (l : Fin n) :
    (_adjustment epsW epsH WH).1 i j = max (WH.1 i j) epsW ∧
    (_adjustment epsW epsH WH).2 k l = max (WH.2 k l) epsH ∧
    epsW ≤ (_adjustment epsW epsH WH).1 i j ∧
    epsH ≤ (_adjustment epsW epsH WH).2 k l :=
  ⟨rfl, rfl, le_max_right _ _, le_max_right _ _⟩

/-- C8 (amended): `conn_objective` called with connectivity state already
present (as carried over from a previous run) takes the shift path: the
returned `consold` is the carried-over `cons` — not the complement of the
freshly computed connectivity matrix — and the change count compares the
fresh matrix against the carried one. -/
theorem conn_state_shift_on_later_calls {r n : ℕ} (H : Mat r n)
    (c d : Matrix (Fin n) (Fin n) Bool) :
    conn_objective H ⟨some c, some d⟩ =
      .ok ((countNe (conn_cons H) c : ℚ), ⟨some (conn_cons H), some c⟩) := rfl

/-- C8 (counterexample): a two-run `factorize` call with objective `conn`.
The claim says the first conn evaluation of every run behaves as a first
call that rebuilds `consold` as the complement of the fresh `cons`;
instead the very first evaluation (run 0, fresh state — exactly the
"discarded at run start" state the claim asserts) raises the unset-`cons`
attribute error and the whole call aborts. -/
theorem conn_state_reset_counterexample :
    factorize cfg8 V0 id 1 1 seed0 5 = .error .attributeError := rfl

/-- C3: the specification says that with `min_residuals = 0.01` and
`test_conv = 0`, a run whose objective drops by `0.5` per iteration and
then by only `0.001` stops exactly where the `0.001` drop is observed
(iteration 7 of `obj3`).  The code's rule compares the signed difference
`c_obj - p_obj ≤ min_residuals`, which any decrease satisfies when the
threshold is positive, so the loop stops after a single update — at
iteration 1, where the objective has just dropped by `0.5`. -/
theorem min_residuals_stops_at_first_decrease :
    runLoop cfg3 obj3 10 = some 1 := by
  unfold runLoop
  rw [show (10 : ℕ) = 9 + 1 from rfl, stopLoop_succ]
  norm_num [_is_satisfied, cfg3, obj3]
  rw [show (9 : ℕ) = 8 + 1 from rfl, stopLoop_succ]
  norm_num [_is_satisfied, cfg3, obj3]

/-- C7 (counterexample): with `max_iter = 5` and the periodic-test
interval unset, an objective sequence that increases at the first step
makes the loop stop after one update, not five: the claim's "regardless of
the residual/objective values produced along the way" fails because the
objective-increase rule can stop the loop before the iteration limit. -/
theorem max_iter_regardless_counterexample :
    runLoop cfg7 (fun k => (k : ℚ)) 10 = some 1 ∧
    runLoop cfg7 (fun k => (k : ℚ)) 10 ≠ some 5 := by
  constructor
  · rfl
  · intro hcon
    rw [show runLoop cfg7 (fun k => (k : ℚ)) 10 = some 1 from rfl] at hcon
    simp at hcon

/-- One `stopLoop` step under `cfg7`, whose periodic-test interval is
unset so the objective is recomputed every iteration. -/
theorem stopLoop_cfg7_succ (obj : ℕ → ℚ) (fuel : ℕ) (p c : ℚ) (iter : ℕ) :
    stopLoop cfg7 obj (fuel + 1) p c iter =
      if _is_satisfied cfg7 p c iter then
        stopLoop cfg7 obj fuel c (obj (iter + 1)) (iter + 1)
      else some iter := by
  have hc : cfg7.test_conv = 0 ∨ iter % cfg7.test_conv = 0 := Or.inl rfl
  rw [stopLoop_succ, if_pos hc]

/-- Under `cfg7`, the evaluator continues at any iteration below 5 whose
objective did not increase. -/
theorem sat_cfg7_continue (p c : ℚ) (iter : ℕ) (h1 : iter < 5)
    (h2 : ¬ p < c) :
    _is_satisfied cfg7 p c iter = true := by
  have c1 : ¬ (cfg7.test_conv ≠ 0 ∧ iter % cfg7.test_conv ≠ 0) :=
    fun hc => hc.1 rfl
  have c2 : ¬ (cfg7.max_iter ≠ 0 ∧ cfg7.max_iter ≤ iter) := by
    intro hc
    have : (5 : ℕ) ≤ iter := hc.2
    omega
  have c3 : ¬ (cfg7.min_residuals ≠ 0 ∧ 0 < iter ∧ c - p ≤ cfg7.min_residuals) :=
    fun hc => hc.1 rfl
  have c4 : ¬ (0 < iter ∧ p < c) := fun hc => h2 hc.2
  unfold _is_satisfied
  rw [if_neg c1, if_neg c2, if_neg c3, if_neg c4]

/-- Under `cfg7`, the evaluator stops at iteration 5 (the max-iteration
rule). -/
theorem sat_cfg7_stop (p c : ℚ) : _is_satisfied cfg7 p c 5 = false := by
  have c1 : ¬ (cfg7.test_conv ≠ 0 ∧ 5 % cfg7.test_conv ≠ 0) :=
    fun hc => hc.1 rfl
  have c2 : cfg7.max_iter ≠ 0 ∧ cfg7.max_iter ≤ 5 := ⟨by decide, by decide⟩
  unfold _is_satisfied
  rw [if_neg c1, if_pos c2]

/-- C7 (amended): with `max_iter = 5` configured and the periodic-test
interval and min-residual threshold unset, the inner loop performs exactly
5 update steps and then stops, provided the objective values it produces
are non-increasing; with increasing values the objective-increase rule can
stop it earlier (see the counterexample), so "regardless of the
residual/objective values" must be weakened to this monotonicity
condition. -/
theorem max_iter_exact_of_nonincreasing (obj : ℕ → ℚ)
    (h : ∀ k, obj (k + 1) ≤ obj k) :
    runLoop cfg7 obj 6 = some 5 := by
  have s0 : _is_satisfied cfg7 (obj 0) (obj 0) 0 = true :=
    sat_cfg7_continue _ _ 0 (by omega) (lt_irrefl _)
  have s1 : _is_satisfied cfg7 (obj 0) (obj 1) 1 = true :=
    sat_cfg7_continue _ _ 1 (by omega) (not_lt.mpr (h 0))
  have s2 : _is_satisfied cfg7 (obj 1) (obj 2) 2 = true :=
    sat_cfg7_continue _ _ 2 (by omega) (not_lt.mpr (h 1))
  have s3 : _is_satisfied cfg7 (obj 2) (obj 3) 3 = true :=
    sat_cfg7_continue _ _ 3 (by omega) (not_lt.mpr (h 2))
  have s4 : _is_satisfied cfg7 (obj 3) (obj 4) 4 = true :=
    sat_cfg7_continue _ _ 4 (by omega) (not_lt.mpr (h 3))
  have s5 : ¬ (_is_satisfied cfg7 (obj 4) (obj 5) 5 = true) := by
    rw [sat_cfg7_stop]
    simp
  unfold runLoop
  rw [show (6 : ℕ) = 5 + 1 from rfl, stopLoop_cfg7_succ, if_pos s0]
  norm_num
  rw [show (5 : ℕ) = 4 + 1 from rfl, stopLoop_cfg7_succ, if_pos s1]
  norm_num
  rw [show (4 : ℕ) = 3 + 1 from rfl, stopLoop_cfg7_succ, if_pos s2]
  norm_num
  rw [show (3 : ℕ) = 2 + 1 from rfl, stopLoop_cfg7_succ, if_pos s3]
  norm_num
  rw [show (2 : ℕ) = 1 + 1 from rfl, stopLoop_cfg7_succ, if_pos s4]
  norm_num
  rw [show (1 : ℕ) = 0 + 1 from rfl, stopLoop_cfg7_succ, if_neg s5]

/-- C7 (witness): a constant objective sequence is non-increasing, and the
loop under `cfg7` then performs exactly 5 updates. -/
theorem max_iter_exact_of_nonincreasing_witness :
    runLoop cfg7 (fun _ => (0 : ℚ)) 6 = some 5 :=
  max_iter_exact_of_nonincreasing (fun _ => 0) (fun _ => le_refl 0)

/-- C9: strategy resolution fails for every configuration whose update
name is outside `{euclidean, divergence}` or whose objective name is
outside `{fro, div, conn}`: `factorize` returns the resolution error (the
`getattr` `AttributeError`, the failure the specification's error
taxonomy names `ConfigurationError`) before the run loop — the result is
a constant independent of `V`, the seeding collaborator and the fuel, so
no seeding, update or objective evaluation contributes to it. -/
theorem unknown_strategy_names_fail_before_runs {m r n : ℕ} (cfg : Config)
    (V : Mat m n) (logFn : ℚ → ℚ) (epsW epsH : ℚ)
    (seed : ℕ → Mat m r × Mat r n) (fuel : ℕ)
    (h : (cfg.update ≠ "euclidean" ∧ cfg.update ≠ "divergence") ∨
         (cfg.objective ≠ "fro" ∧ cfg.objective ≠ "div" ∧ cfg.objective ≠ "conn")) :
    factorize cfg V logFn epsW epsH seed fuel = .error .attributeError := by
  unfold factorize resolve_update resolve_objective
  rcases h with ⟨h1, h2⟩ | ⟨h1, h2, h3⟩
  · rw [if_neg h1, if_neg h2]
  · rw [if_neg h1, if_neg h2, if_neg h3]
    split_ifs <;> rfl

/-- C9 (witness): a configuration with update name `gradient` makes
`factorize` fail with the resolution error on concrete inputs. -/
theorem unknown_strategy_names_fail_witness :
    factorize cfg9 V0 id 1 1 seed0 3 = .error .attributeError :=
  unknown_strategy_names_fail_before_runs cfg9 V0 id 1 1 seed0 3
    (Or.inl ⟨by decide, by decide⟩)

/-- One unfolding step of `innerLoop` at positive fuel. -/
theorem innerLoop_succ {m r n : ℕ} (cfg : Config) (upd adj : UpdFn m r n)
    (obj : ObjFn m r n) (fuel : ℕ) (WH : Mat m r × Mat r n) (cs : ConnState n)
    (tr : Option (Tracker m r n)) (pobj cobj : ℚ) (iter : ℕ) :
    innerLoop cfg upd adj obj (fuel + 1) WH cs tr pobj cobj iter =
      (if _is_satisfied cfg pobj cobj iter then
        let WH1 := adj (upd WH)
        match (if cfg.test_conv = 0 ∨ iter % cfg.test_conv = 0 then
                 obj WH1.1 WH1.2 cs
               else .ok (cobj, cs)) with
        | .error e => .error e
        | .ok (c1, cs1) =>
          match ((if cfg.track_error then
                   match tr with
                   | none => .error .attributeError
                   | some t => .ok (some ⟨t.factors, t.errs + 1⟩)
                 else .ok tr) : Except Err (Option (Tracker m r n))) with
          | .error e => .error e
          | .ok tr1 => innerLoop cfg upd adj obj fuel WH1 cs1 tr1 cobj c1 (iter + 1)
      else .ok (WH, cs, tr, cobj, iter)) := rfl

/-- When error tracking is off, the inner loop never touches the tracker:
whatever tracker value it was started with is the one found in a
successful result. -/
theorem innerLoop_tracker_of_no_track_error {m r n : ℕ} (cfg : Config)
    (upd adj : UpdFn m r n) (obj : ObjFn m r n)
    (hte : cfg.track_error = false) :
    ∀ (fuel : ℕ) (WH : Mat m r × Mat r n) (cs : ConnState n)
      (tr : Option (Tracker m r n)) (pobj cobj : ℚ) (iter : ℕ)
      (out : (Mat m r × Mat r n) × ConnState n × Option (Tracker m r n) × ℚ × ℕ),
      innerLoop cfg upd adj obj fuel WH cs tr pobj cobj iter = Except.ok out →
      out.2.2.1 = tr := by
  intro fuel
  induction fuel with
  | zero =>
    intro WH cs tr pobj cobj iter out hrun
    exact absurd hrun (by simp [innerLoop])
  | succ k ih =>
    intro WH cs tr pobj cobj iter out hrun
    rw [innerLoop_succ, hte, if_neg Bool.false_ne_true] at hrun
    dsimp only at hrun
    split at hrun
    · split at hrun
      · exact absurd hrun (by simp)
      · exact ih _ _ _ _ _ _ _ hrun
    · injection hrun with hout
      rw [← hout]

/-- C10: with `track_factor = True`, `n_run = 1` and `track_error =
False`, `_set_params` constructs no tracker (`track_factor and n_run > 1
or track_error` is false, so `self.tracker = None`), yet the end-of-run
branch `if self.track_factor: self.tracker._track_factor(...)` still runs
and calls the method on `None`; consequently no such `factorize` call ever
returns a result — every path ends in an error (the `None`-tracker
attribute error when the run completes its loop, or an earlier
error/fuel exhaustion otherwise), never in a recorded or silently skipped
snapshot. -/
theorem track_factor_single_run_cannot_complete {m r n : ℕ} (cfg : Config)
    (V : Mat m n) (logFn : ℚ → ℚ) (epsW epsH : ℚ)
    (seed : ℕ → Mat m r × Mat r n) (fuel : ℕ)
    (h1 : cfg.track_factor = true) (h2 : cfg.n_run = 1)
    (h3 : cfg.track_error = false) :
    mkTracker m r n cfg = none ∧
      (factorize cfg V logFn epsW epsH seed fuel).isOk = false := by
  have htr : mkTracker m r n cfg = none := by
    unfold mkTracker
    rw [h1, h2, h3]
    simp
  refine ⟨htr, ?_⟩
  unfold factorize
  cases hru : resolve_update V cfg.update with
  | error e => rfl
  | ok upd =>
    cases hro : resolve_objective logFn V cfg.objective with
    | error e => rfl
    | ok obj =>
      rw [h2, htr, show (1 : ℕ) = 0 + 1 from rfl]
      unfold runsLoop
      dsimp only
      cases hobj : obj (seed 0).1 (seed 0).2 ⟨none, none⟩ with
      | error e => rfl
      | ok p =>
        obtain ⟨c0, cs0⟩ := p
        dsimp only
        cases hil : innerLoop cfg upd (_adjustment epsW epsH) obj fuel (seed 0)
            cs0 none c0 c0 0 with
        | error e => rfl
        | ok out =>
          have htr1 : out.2.2.1 = none :=
            innerLoop_tracker_of_no_track_error cfg upd (_adjustment epsW epsH)
              obj h3 fuel _ _ _ _ _ _ _ hil
          obtain ⟨WH1, cs1, tr1, cobj1, iter1⟩ := out
          dsimp only at htr1 ⊢
          subst htr1
          simp only [h1]
          rfl

/-- C10 (witness): the concrete configuration `cfg10` (factor tracking on,
one run, no error tracking) builds no tracker and cannot complete. -/
theorem track_factor_single_run_witness :
    mkTracker 2 2 3 cfg10 = none ∧
      (factorize cfg10 V0 id 1 1 seed0 3).isOk = false :=
  track_factor_single_run_cannot_complete cfg10 V0 id 1 1 seed0 3 rfl rfl rfl

end NmfEngine
